import Mathlib

/-!
# BLEFreeRTOS: the application core of `app.c`

A shallow embedding of `app.c` (IADC sampling, the two FreeRTOS tasks and the
Bluetooth event handler) together with the properties proved about it.

Conventions of the embedding:

* `uint8_t` values are `Fin 256`, `sl_status_t` values are `Fin 2^32`; the only
  arithmetic the program performs on a machine integer is the millivolt
  conversion, which is done on `Nat` with an explicit `% 2^32`;
* constants, macros and register values that come from SDK headers are the
  fields of `Sdk`, so every result holds for any value of them;
* the external collaborators (Bluetooth stack, IADC peripheral, RTOS queue)
  are parameters; every call made to the Bluetooth stack is recorded, with its
  arguments and its results, in a transcript.
-/

namespace BLEFreeRTOS

/-! ## Machine types -/

/-- An octet, the C type `uint8_t`. -/
abbrev uint8_t := Fin 256

/-- The C type `sl_status_t`, an unsigned 32-bit status code. -/
abbrev sl_status_t := Fin 4294967296

/-- Conversion of an unsigned 32-bit value to `int` on the 32-bit target
(two's complement, as done by `return millivolts;` and by `(int)sc`). -/
def uint32_to_int (x : Nat) : Int :=
  if x % 4294967296 < 2147483648 then ((x % 4294967296 : Nat) : Int)
  else ((x % 4294967296 : Nat) : Int) - 4294967296

/-- The SDK type `IADC_Result_t`: a raw conversion result and its channel id. -/
structure IADC_Result_t where
  data : Nat
  id : Nat
deriving DecidableEq, Repr

/-- The Bluetooth address type `bd_addr`: six octets `addr[0] .. addr[5]`. -/
structure bd_addr where
  addr : Fin 6 → uint8_t
deriving DecidableEq

/-- Constants and macros that `app.c` takes from SDK headers (`em_iadc.h`,
`sl_bt_api.h`, `sl_status.h`, `gatt_db.h`). -/
structure Sdk where
  _IADC_STATUS_CONVERTING_MASK : Nat
  _IADC_STATUS_SINGLEFIFODV_MASK : Nat
  IADC_STATUS_SINGLEFIFODV : Nat
  SL_BT_MSG_ID : Nat → Nat
  sl_bt_evt_system_boot_id : Nat
  sl_bt_evt_connection_opened_id : Nat
  sl_bt_evt_connection_closed_id : Nat
  SL_STATUS_OK : sl_status_t
  gattdb_system_id : Nat
  gattdb_ADCData : Nat
  advertiser_general_discoverable : Nat
  advertiser_connectable_scannable : Nat

/-! ## IADC -/

/-- The IADC peripheral as the program sees it: `STATUS n` is the value of the
`n`-th read of the volatile `STATUS` register after the conversion was
started, `fifo` is what `IADC_pullSingleFifoResult` hands out. -/
structure IADC_TypeDef where
  STATUS : Nat → Nat
  fifo : IADC_Result_t

/-- Globals written by `my_adc_measurement_get`. -/
structure AdcGlobals where
  sample : IADC_Result_t
  millivolts : Nat
deriving DecidableEq, Repr

/-- The loop condition of the busy wait in `my_adc_measurement_get`, evaluated
on the `n`-th read of `STATUS`: true while the conversion is not complete. -/
def conversion_pending (k : Sdk) (IADC0 : IADC_TypeDef) (n : Nat) : Bool :=
  (IADC0.STATUS n &&& (k._IADC_STATUS_CONVERTING_MASK ||| k._IADC_STATUS_SINGLEFIFODV_MASK))
    != k.IADC_STATUS_SINGLEFIFODV

/-- The busy wait `while ((IADC0->STATUS & (...)) != IADC_STATUS_SINGLEFIFODV);`
with a bound `fuel` on the number of register reads; `n` is the number of reads
already done.  Returns the total number of reads when the loop is left. -/
def wait_conversion (k : Sdk) (IADC0 : IADC_TypeDef) : Nat → Nat → Option Nat
  | 0, _ => none
  | fuel + 1, n =>
    if conversion_pending k IADC0 n then wait_conversion k IADC0 fuel (n + 1)
    else some (n + 1)

/-- The HAL call `IADC_pullSingleFifoResult(IADC0)`. -/
def IADC_pullSingleFifoResult (IADC0 : IADC_TypeDef) : IADC_Result_t :=
  IADC0.fifo

/-- The function `my_adc_measurement_get`: waits for the conversion, pulls the
sample and scales it, `millivolts = (sample.data * 2500) / 4096` in `uint32_t`
arithmetic; the `uint32_t` is returned as `int`. -/
def my_adc_measurement_get (k : Sdk) (IADC0 : IADC_TypeDef) (fuel : Nat) :
    Option (AdcGlobals × Int) :=
  match wait_conversion k IADC0 fuel 0 with
  | none => none
  | some _ =>
    let sample := IADC_pullSingleFifoResult IADC0
    let millivolts := (sample.data * 2500) % 4294967296 / 4096
    some (⟨sample, millivolts⟩, uint32_to_int millivolts)

/-! ## Bluetooth stack interface -/

/-- A stack message `sl_bt_msg_t`; only its header is inspected by the handler. -/
structure sl_bt_msg_t where
  header : Nat

/-- One call made to the Bluetooth stack, with the arguments passed and the
results obtained (`sc` is the returned status; for calls with output
parameters the values left in them are recorded too). -/
inductive StackCall where
  | sl_bt_system_get_identity_address (address : bd_addr) (address_type : uint8_t)
      (sc : sl_status_t)
  | sl_bt_gatt_server_write_attribute_value (attribute_id offset value_len : Nat)
      (value : List uint8_t) (sc : sl_status_t)
  | sl_bt_advertiser_create_set (handle : uint8_t) (sc : sl_status_t)
  | sl_bt_advertiser_set_timing (handle : uint8_t)
      (interval_min interval_max duration maxevents : Nat) (sc : sl_status_t)
  | sl_bt_advertiser_start (handle : uint8_t) (discover connect : Nat) (sc : sl_status_t)
deriving DecidableEq

/-- The status a recorded call returned. -/
def StackCall.sc : StackCall → sl_status_t
  | .sl_bt_system_get_identity_address _ _ sc => sc
  | .sl_bt_gatt_server_write_attribute_value _ _ _ _ sc => sc
  | .sl_bt_advertiser_create_set _ sc => sc
  | .sl_bt_advertiser_set_timing _ _ _ _ _ sc => sc
  | .sl_bt_advertiser_start _ _ _ sc => sc

/-- The position of a call in the boot sequence of `sl_bt_on_event`
(0 = get identity address, ..., 4 = advertiser start). -/
def StackCall.step : StackCall → Nat
  | .sl_bt_system_get_identity_address _ _ _ => 0
  | .sl_bt_gatt_server_write_attribute_value _ _ _ _ _ => 1
  | .sl_bt_advertiser_create_set _ _ => 2
  | .sl_bt_advertiser_set_timing _ _ _ _ _ _ => 3
  | .sl_bt_advertiser_start _ _ _ _ => 4

/-- The external Bluetooth stack: a state of type `σ` and, for each command
used by `app.c`, its effect on that state and its results.
`create_set` receives the current content of the handle variable it is given a
pointer to and returns the content it leaves there. -/
structure BtStack (σ : Type) where
  get_identity_address : σ → σ × bd_addr × uint8_t × sl_status_t
  write_attribute_value : Nat → Nat → Nat → List uint8_t → σ → σ × sl_status_t
  create_set : uint8_t → σ → σ × uint8_t × sl_status_t
  set_timing : uint8_t → Nat → Nat → Nat → Nat → σ → σ × sl_status_t
  start : uint8_t → Nat → Nat → σ → σ × sl_status_t

/-- State of the application as far as the event handler is concerned: the
static `advertising_set_handle`, the state of the stack, the transcript of the
stack calls made so far (oldest first) and the console output. -/
structure AppState (σ : Type) where
  advertising_set_handle : uint8_t
  stack : σ
  calls : List StackCall
  console : List String

/-- The state at start-up: `advertising_set_handle = 0xff`, nothing called. -/
def AppState.init {σ : Type} (stack : σ) : AppState σ :=
  ⟨0xff, stack, [], []⟩

/-- How a run of the handler ends: it returns, or an assertion aborts it with
a diagnostic code. -/
inductive Outcome (σ : Type) where
  | returned (s : AppState σ)
  | aborted (code : Int) (s : AppState σ)

/-- The application state at the end of a run. -/
def Outcome.state {σ : Type} : Outcome σ → AppState σ
  | .returned s => s
  | .aborted _ s => s

/-- The diagnostic code of an aborted run. -/
def Outcome.code {σ : Type} : Outcome σ → Option Int
  | .returned _ => none
  | .aborted c _ => some c

/-- Console output of `printf`. -/
def printf {σ : Type} (msg : String) (s : AppState σ) : AppState σ :=
  { s with console := s.console ++ [msg] }

/-- Modelled from the spec: `sl_app_assert` (its header `sl_app_assert.h` is not
part of the sources).  When the condition holds the program continues;
otherwise the message is reported and the program aborts with the given
diagnostic code. -/
def sl_app_assert {σ : Type} (cond : Bool) (msg : String) (code : Int) (s : AppState σ)
    (continue_with : AppState σ → Outcome σ) : Outcome σ :=
  if cond then continue_with s else .aborted code (printf msg s)

/-- The command `sl_bt_system_get_identity_address(&address, &address_type)`. -/
def sl_bt_system_get_identity_address {σ : Type} (stk : BtStack σ) (s : AppState σ) :
    AppState σ × bd_addr × uint8_t × sl_status_t :=
  let r := stk.get_identity_address s.stack
  ({ s with stack := r.1,
            calls := s.calls ++ [.sl_bt_system_get_identity_address r.2.1 r.2.2.1 r.2.2.2] },
    r.2.1, r.2.2.1, r.2.2.2)

/-- The command `sl_bt_gatt_server_write_attribute_value(attribute_id, offset,
value_len, value)`; `value` is the content of the buffer passed. -/
def sl_bt_gatt_server_write_attribute_value {σ : Type} (stk : BtStack σ)
    (attribute_id offset value_len : Nat) (value : List uint8_t) (s : AppState σ) :
    AppState σ × sl_status_t :=
  let r := stk.write_attribute_value attribute_id offset value_len value s.stack
  ({ s with stack := r.1,
            calls := s.calls ++
              [.sl_bt_gatt_server_write_attribute_value attribute_id offset value_len value r.2] },
    r.2)

/-- The command `sl_bt_advertiser_create_set(&advertising_set_handle)`: the
stack writes the handle through the pointer to the static variable. -/
def sl_bt_advertiser_create_set {σ : Type} (stk : BtStack σ) (s : AppState σ) :
    AppState σ × sl_status_t :=
  let r := stk.create_set s.advertising_set_handle s.stack
  ({ s with advertising_set_handle := r.2.1, stack := r.1,
            calls := s.calls ++ [.sl_bt_advertiser_create_set r.2.1 r.2.2] },
    r.2.2)

/-- The command `sl_bt_advertiser_set_timing(handle, interval_min,
interval_max, duration, maxevents)`. -/
def sl_bt_advertiser_set_timing {σ : Type} (stk : BtStack σ) (handle : uint8_t)
    (interval_min interval_max duration maxevents : Nat) (s : AppState σ) :
    AppState σ × sl_status_t :=
  let r := stk.set_timing handle interval_min interval_max duration maxevents s.stack
  ({ s with stack := r.1,
            calls := s.calls ++
              [.sl_bt_advertiser_set_timing handle interval_min interval_max duration
                maxevents r.2] },
    r.2)

/-- The command `sl_bt_advertiser_start(handle, discover, connect)`. -/
def sl_bt_advertiser_start {σ : Type} (stk : BtStack σ) (handle : uint8_t)
    (discover connect : Nat) (s : AppState σ) : AppState σ × sl_status_t :=
  let r := stk.start handle discover connect s.stack
  ({ s with stack := r.1,
            calls := s.calls ++ [.sl_bt_advertiser_start handle discover connect r.2] },
    r.2)

/-! ## The Bluetooth event handler -/

/-- The function `sl_bt_on_event`: a `switch` on the message id with the
branches boot, connection opened, connection closed and default. -/
def sl_bt_on_event {σ : Type} (k : Sdk) (stk : BtStack σ) (evt : sl_bt_msg_t)
    (s : AppState σ) : Outcome σ :=
  let id := k.SL_BT_MSG_ID evt.header
  if id = k.sl_bt_evt_system_boot_id then
    let s := printf "Hello world\r\n" s
    -- Extract unique ID from BT Address.
    let r := sl_bt_system_get_identity_address stk s
    let address := r.2.1
    let sc := r.2.2.2
    sl_app_assert (sc = k.SL_STATUS_OK) "[E: 0x%04x] Failed to get Bluetooth address\n"
      (uint32_to_int sc.val) r.1 fun s =>
    -- Pad and reverse unique ID to get System ID.
    let system_id : List uint8_t :=
      [address.addr 5, address.addr 4, address.addr 3, 0xFF, 0xFE,
       address.addr 2, address.addr 1, address.addr 0]
    let r := sl_bt_gatt_server_write_attribute_value stk k.gattdb_system_id 0
      system_id.length system_id s
    let sc := r.2
    sl_app_assert (sc = k.SL_STATUS_OK) "[E: 0x%04x] Failed to write attribute\n"
      (uint32_to_int sc.val) r.1 fun s =>
    -- Create an advertising set.
    let r := sl_bt_advertiser_create_set stk s
    let sc := r.2
    sl_app_assert (sc = k.SL_STATUS_OK) "[E: 0x%04x] Failed to create advertising set\n"
      (uint32_to_int sc.val) r.1 fun s =>
    -- Set advertising interval to 100ms.
    let r := sl_bt_advertiser_set_timing stk s.advertising_set_handle 160 160 0 0 s
    let sc := r.2
    sl_app_assert (sc = k.SL_STATUS_OK) "[E: 0x%04x] Failed to set advertising timing\n"
      (uint32_to_int sc.val) r.1 fun s =>
    -- Start general advertising and enable connections.
    let r := sl_bt_advertiser_start stk s.advertising_set_handle
      k.advertiser_general_discoverable k.advertiser_connectable_scannable s
    let sc := r.2
    sl_app_assert (sc = k.SL_STATUS_OK) "[E: 0x%04x] Failed to start advertising\n"
      (uint32_to_int sc.val) r.1 fun s =>
    .returned s
  else if id = k.sl_bt_evt_connection_opened_id then
    .returned s
  else if id = k.sl_bt_evt_connection_closed_id then
    -- Restart advertising after client has disconnected.
    let r := sl_bt_advertiser_start stk s.advertising_set_handle
      k.advertiser_general_discoverable k.advertiser_connectable_scannable s
    let sc := r.2
    sl_app_assert (sc = k.SL_STATUS_OK) "[E: 0x%04x] Failed to start advertising\n"
      (uint32_to_int sc.val) r.1 fun s =>
    .returned s
  else
    .returned s

/-- Delivery of a sequence of events, one call of `sl_bt_on_event` per event;
an abort ends the run. -/
def deliver {σ : Type} (k : Sdk) (stk : BtStack σ) : List sl_bt_msg_t → AppState σ → Outcome σ
  | [], s => .returned s
  | evt :: rest, s =>
    match sl_bt_on_event k stk evt s with
    | .returned s1 => deliver k stk rest s1
    | .aborted c s1 => .aborted c s1

/-! ## The two tasks -/

/-- Size of `int` on the 32-bit target, `sizeof(milivolts)`. -/
def sizeof_int : Nat := 4

/-- The object representation of an `int` on the target: four octets, least
significant first, two's complement. -/
def int_bytes (v : Int) : List uint8_t :=
  let u := (v % 4294967296).toNat
  [Fin.ofNat u, Fin.ofNat (u / 256), Fin.ofNat (u / 65536), Fin.ofNat (u / 16777216)]

/-- Memory after storing the octets `bs` at address `p`. -/
def store_bytes (mem : Nat → uint8_t) (p : Nat) (bs : List uint8_t) : Nat → uint8_t :=
  fun a => if p ≤ a ∧ a < p + bs.length then bs.getD (a - p) 0 else mem a

/-- The `len` octets found in memory from address `p` on. -/
def load_bytes (mem : Nat → uint8_t) (p len : Nat) : List uint8_t :=
  (List.range len).map fun i => mem (p + i)

/-- What a task does to the outside world: log and console output, IADC
command, attribute write (with the pointer value passed as `value` and the
octets found there), queue operations, LED toggle and delay. -/
inductive TaskAction where
  | sl_app_log (msg : String)
  | printf (msg : String)
  | my_adc_start_measurement
  | sl_bt_gatt_server_write_attribute_value (attribute_id offset value_len : Nat)
      (value_ptr : Nat) (value : List uint8_t)
  | xQueueSend (item : Int) (xTicksToWait : Nat)
  | xQueueReceive (xTicksToWait : Nat)
  | sl_led_toggle
  | vTaskDelay (xTicksToDelay : Nat)
deriving DecidableEq

/-- One iteration of the `while (1)` loop of `iadc_task`.

`mem` is the memory content when the iteration starts and `addr_milivolts` the
address of the local variable `milivolts`; `xQueueSend_result` is what
`xQueueSend` returns.  The fourth argument of the attribute write is
`(uint8_t)&milivolts`, the address reduced to its low octet, which the callee
uses as the pointer to the value.  The result is `none` when the busy wait of
`my_adc_measurement_get` does not end within `fuel` register reads. -/
def iadc_task_iteration (k : Sdk) (IADC0 : IADC_TypeDef) (fuel : Nat) (mem : Nat → uint8_t)
    (addr_milivolts : Nat) (xQueueSend_result : Int) : Option (AdcGlobals × List TaskAction) :=
  -- int milivolts = 0;
  let mem := store_bytes mem addr_milivolts (int_bytes 0)
  match my_adc_measurement_get k IADC0 fuel with
  | none => none
  | some (g, milivolts) =>
    -- milivolts = my_adc_measurement_get();
    let mem := store_bytes mem addr_milivolts (int_bytes milivolts)
    -- (uint8_t)&milivolts
    let value_ptr := addr_milivolts % 256
    some (g,
      [.sl_app_log "ADC Task\r\n",
       .my_adc_start_measurement,
       .sl_bt_gatt_server_write_attribute_value k.gattdb_ADCData 0 sizeof_int value_ptr
          (load_bytes mem value_ptr sizeof_int),
       .xQueueSend milivolts 1000]
      ++ (if xQueueSend_result = 0 then [.printf "Failed to send to the queue\r\n"] else [])
      ++ [.vTaskDelay 1000])

/-- One iteration of the `while (1)` loop of `led_task`.
`xQueueReceive_result` is what `xQueueReceive` returns and `received` the value
it leaves in the local variable `milivolts`, which the task never reads. -/
def led_task_iteration (xQueueReceive_result : Int) (received : Int) : List TaskAction :=
  let _milivolts : Int := received
  [.sl_app_log "LED Task\r\n", .xQueueReceive 1000]
  ++ (if xQueueReceive_result ≠ 0 then [.sl_led_toggle]
      else [.printf "Failed to receive from the queue\r\n"])
  ++ [.vTaskDelay 500]

/-- The first `n` iterations of `led_task`, from iteration `i` on, when the
queue answers the `j`-th receive with `queue j` (return value, item). -/
def led_task (queue : Nat → Int × Int) : Nat → Nat → List TaskAction
  | 0, _ => []
  | n + 1, i => led_task_iteration (queue i).1 (queue i).2 ++ led_task queue n (i + 1)

/-- The timeouts, in ticks, of the `xQueueReceive` calls among the actions. -/
def receive_timeouts (acts : List TaskAction) : List Nat :=
  acts.filterMap fun a =>
    match a with
    | .xQueueReceive t => some t
    | _ => none

/-- The durations, in ticks, of the `vTaskDelay` calls among the actions. -/
def task_delays (acts : List TaskAction) : List Nat :=
  acts.filterMap fun a =>
    match a with
    | .vTaskDelay t => some t
    | _ => none

/-- Duration in milliseconds of a number of ticks at a tick rate of
`configTICK_RATE_HZ` ticks per second. -/
def ticks_to_ms (configTICK_RATE_HZ ticks : Nat) : Nat :=
  ticks * 1000 / configTICK_RATE_HZ

/-- The stack calls made during a run that started in state `s` and ended
with outcome `o`: what the run appended to the transcript. -/
def new_calls {σ : Type} (s : AppState σ) (o : Outcome σ) : List StackCall :=
  o.state.calls.drop s.calls.length

/-! ## Concrete instances -/

/-- Sample values for the constants of `Sdk`, in the style of the Gecko SDK
headers (`SL_BT_MSG_ID` masks the header with `0xffff00f8`). -/
def gecko_sdk : Sdk where
  _IADC_STATUS_CONVERTING_MASK := 0x40
  _IADC_STATUS_SINGLEFIFODV_MASK := 0x100
  IADC_STATUS_SINGLEFIFODV := 0x100
  SL_BT_MSG_ID := fun hdr => hdr &&& 0xffff00f8
  sl_bt_evt_system_boot_id := 0x000100a0
  sl_bt_evt_connection_opened_id := 0x000300a0
  sl_bt_evt_connection_closed_id := 0x010300a0
  SL_STATUS_OK := 0
  gattdb_system_id := 18
  gattdb_ADCData := 27
  advertiser_general_discoverable := 2
  advertiser_connectable_scannable := 2

/-- An IADC whose conversion is complete at the first read of `STATUS` and
whose FIFO holds the raw code `data`. -/
def iadc_done (data : Nat) : IADC_TypeDef where
  STATUS := fun _ => 0x100
  fifo := ⟨data, 0⟩

/-- A stack whose state counts the commands received and that answers the
command number `fail_at` (counting from 0) with status `0x0001` and all others
with `SL_STATUS_OK = 0`; the identity address is `01:02:03:04:05:06` (octets
`addr[0] .. addr[5]`) and the advertising set handle it hands out is `0`. -/
def counting_stack (fail_at : Nat) : BtStack Nat where
  get_identity_address := fun n =>
    (n + 1, ⟨fun i => Fin.ofNat (i.val + 1)⟩, 0, if n = fail_at then 1 else 0)
  write_attribute_value := fun _ _ _ _ n => (n + 1, if n = fail_at then 1 else 0)
  create_set := fun h n =>
    (n + 1, if n = fail_at then h else 0, if n = fail_at then 1 else 0)
  set_timing := fun _ _ _ _ _ n => (n + 1, if n = fail_at then 1 else 0)
  start := fun _ _ _ n => (n + 1, if n = fail_at then 1 else 0)

/-- A boot event. -/
def boot_evt : sl_bt_msg_t := ⟨0x000100a0⟩

/-- A connection-closed event. -/
def closed_evt : sl_bt_msg_t := ⟨0x010300a0⟩

/-- A connection-opened event. -/
def opened_evt : sl_bt_msg_t := ⟨0x000300a0⟩

/-- A memory content in which every octet holds the low octet of its own
address. -/
def address_pattern : Nat → uint8_t :=
  fun a => Fin.ofNat a

/-! ## Lemmas on the IADC part -/

theorem wait_conversion_of_ready (k : Sdk) (IADC0 : IADC_TypeDef) :
    ∀ (fuel n m : Nat), n ≤ m → m < n + fuel → conversion_pending k IADC0 m = false →
      ∃ r, wait_conversion k IADC0 fuel n = some r := by
  intro fuel
  induction fuel with
  | zero => intro n m h1 h2; omega
  | succ f ih =>
    intro n m h1 h2 hm
    by_cases hp : conversion_pending k IADC0 n = true
    · have hne : n ≠ m := by
        intro h; subst h; rw [hm] at hp; exact Bool.noConfusion hp
      obtain ⟨r, hr⟩ := ih (n + 1) m (by omega) (by omega) hm
      exact ⟨r, by simp [wait_conversion, hp, hr]⟩
    · exact ⟨n + 1, by simp [wait_conversion, hp]⟩

theorem my_adc_measurement_get_of_ready (k : Sdk) (IADC0 : IADC_TypeDef) (fuel m : Nat)
    (hm : m < fuel) (hready : conversion_pending k IADC0 m = false) :
    my_adc_measurement_get k IADC0 fuel =
      some (⟨IADC0.fifo, (IADC0.fifo.data * 2500) % 4294967296 / 4096⟩,
        uint32_to_int ((IADC0.fifo.data * 2500) % 4294967296 / 4096)) := by
  obtain ⟨r, hr⟩ := wait_conversion_of_ready k IADC0 fuel 0 m (by omega) (by omega) hready
  simp [my_adc_measurement_get, hr, IADC_pullSingleFifoResult]

theorem uint32_to_int_of_lt (x : Nat) (h : x < 2147483648) : uint32_to_int x = (x : Int) := by
  have h1 : x % 4294967296 = x := Nat.mod_eq_of_lt (by omega)
  simp [uint32_to_int, h1, h]

/-! ## The millivolt conversion -/

/-- C1: for every raw ADC code `c` with `0 ≤ c ≤ 4095` in `sample.data`, once the
conversion completes `my_adc_measurement_get` returns `floor(c * 2500 / 4096)`
(and leaves it in the global `millivolts`); this is `0` for `c = 0` and `2499`
for `c = 4095`. -/
theorem my_adc_measurement_get_12bit (k : Sdk) (IADC0 : IADC_TypeDef) (fuel m c : Nat)
    (hm : m < fuel) (hready : conversion_pending k IADC0 m = false)
    (hdata : IADC0.fifo.data = c) (hc : c ≤ 4095) :
    my_adc_measurement_get k IADC0 fuel
        = some (⟨IADC0.fifo, c * 2500 / 4096⟩, ((c * 2500 / 4096 : Nat) : Int))
      ∧ (c = 0 → (my_adc_measurement_get k IADC0 fuel).map Prod.snd = some 0)
      ∧ (c = 4095 → (my_adc_measurement_get k IADC0 fuel).map Prod.snd = some 2499) := by
  have hmod : (c * 2500) % 4294967296 = c * 2500 := Nat.mod_eq_of_lt (by omega)
  have hlt : c * 2500 / 4096 < 2147483648 := by omega
  have hget := my_adc_measurement_get_of_ready k IADC0 fuel m hm hready
  rw [hdata, hmod, uint32_to_int_of_lt _ hlt] at hget
  refine ⟨hget, ?_, ?_⟩
  · intro h0
    subst h0
    rw [hget]
    rfl
  · intro h1
    subst h1
    rw [hget]
    rfl

/-- Witness of C1 at the largest 12-bit code, `c = 4095`. -/
theorem my_adc_measurement_get_12bit_witness :
    my_adc_measurement_get gecko_sdk (iadc_done 4095) 1
      = some (⟨⟨4095, 0⟩, 2499⟩, 2499) :=
  (my_adc_measurement_get_12bit gecko_sdk (iadc_done 4095) 1 0 4095 (by decide) (by decide)
    rfl (by decide)).1

/-- C10: for every 32-bit unsigned value `d` of `sample.data`, once the
conversion completes `my_adc_measurement_get` returns
`((d * 2500) mod 2^32) / 4096`; this is at most `1048575`, so the conversion of
the `uint32_t` to `int` is never negative; it is the exact
`floor(d * 2500 / 4096)` whenever `d ≤ 1717986`, and for `d = 1717987` the
product wraps and the result differs from the exact value. -/
theorem my_adc_measurement_get_uint32 (k : Sdk) (IADC0 : IADC_TypeDef) (fuel m d : Nat)
    (hm : m < fuel) (hready : conversion_pending k IADC0 m = false)
    (hdata : IADC0.fifo.data = d) (hd : d < 4294967296) :
    ∃ r : Int,
      (my_adc_measurement_get k IADC0 fuel).map Prod.snd = some r
      ∧ r = (((d * 2500) % 4294967296 / 4096 : Nat) : Int)
      ∧ 0 ≤ r ∧ r ≤ 1048575
      ∧ (d ≤ 1717986 → r = ((d * 2500 / 4096 : Nat) : Int))
      ∧ (d = 1717987 → r ≠ ((d * 2500 / 4096 : Nat) : Int)) := by
  have hlt : (d * 2500) % 4294967296 / 4096 < 2147483648 := by omega
  have hget := my_adc_measurement_get_of_ready k IADC0 fuel m hm hready
  rw [hdata, uint32_to_int_of_lt _ hlt] at hget
  refine ⟨_, by rw [hget]; rfl, rfl, by omega, by omega, ?_, ?_⟩
  · intro hle
    have hmod : (d * 2500) % 4294967296 = d * 2500 := Nat.mod_eq_of_lt (by omega)
    rw [hmod]
  · intro h1
    subst h1
    decide

/-- Witness of C10 at the first value whose product wraps, `d = 1717987`: the
function returns `0` where the exact quotient is `1048576`. -/
theorem my_adc_measurement_get_uint32_witness :
    (my_adc_measurement_get gecko_sdk (iadc_done 1717987) 1).map Prod.snd = some 0
      ∧ 1717987 * 2500 / 4096 = 1048576 := by
  obtain ⟨r, h1, h2, -⟩ := my_adc_measurement_get_uint32 gecko_sdk (iadc_done 1717987) 1 0
    1717987 (by decide) (by decide) rfl (by decide)
  refine ⟨?_, by decide⟩
  rw [h1, h2]
  rfl

/-! ## The event handler -/

theorem uint32_to_int_emod (x : Nat) (h : x < 4294967296) :
    uint32_to_int x % 4294967296 = (x : Int) := by
  have h1 : x % 4294967296 = x := Nat.mod_eq_of_lt h
  unfold uint32_to_int
  rw [h1]
  split <;> omega

/-- The connection-closed branch of `sl_bt_on_event`, spelled out: one
`sl_bt_advertiser_start` on the stored handle, then return or abort on its
status. -/
theorem sl_bt_on_event_closed {σ : Type} (k : Sdk) (stk : BtStack σ) (evt : sl_bt_msg_t)
    (s : AppState σ)
    (hclosed : k.SL_BT_MSG_ID evt.header = k.sl_bt_evt_connection_closed_id)
    (hb : k.sl_bt_evt_connection_closed_id ≠ k.sl_bt_evt_system_boot_id)
    (ho : k.sl_bt_evt_connection_closed_id ≠ k.sl_bt_evt_connection_opened_id) :
    sl_bt_on_event k stk evt s =
      if (stk.start s.advertising_set_handle k.advertiser_general_discoverable
            k.advertiser_connectable_scannable s.stack).2 = k.SL_STATUS_OK then
        .returned
          { s with
            stack := (stk.start s.advertising_set_handle k.advertiser_general_discoverable
              k.advertiser_connectable_scannable s.stack).1
            calls := s.calls ++
              [.sl_bt_advertiser_start s.advertising_set_handle
                k.advertiser_general_discoverable k.advertiser_connectable_scannable
                (stk.start s.advertising_set_handle k.advertiser_general_discoverable
                  k.advertiser_connectable_scannable s.stack).2] }
      else
        .aborted
          (uint32_to_int (stk.start s.advertising_set_handle k.advertiser_general_discoverable
              k.advertiser_connectable_scannable s.stack).2.val)
          { s with
            stack := (stk.start s.advertising_set_handle k.advertiser_general_discoverable
              k.advertiser_connectable_scannable s.stack).1
            calls := s.calls ++
              [.sl_bt_advertiser_start s.advertising_set_handle
                k.advertiser_general_discoverable k.advertiser_connectable_scannable
                (stk.start s.advertising_set_handle k.advertiser_general_discoverable
                  k.advertiser_connectable_scannable s.stack).2]
            console := s.console ++ ["[E: 0x%04x] Failed to start advertising\n"] } := by
  simp only [sl_bt_on_event, hclosed, hb, ho, if_false, if_true, sl_app_assert,
    sl_bt_advertiser_start, printf, decide_eq_true_eq]

/-- The boot branch of `sl_bt_on_event` either returns after the five calls of
the boot sequence, all successful, or aborts right after a call that failed. -/
theorem sl_bt_on_event_boot {σ : Type} (k : Sdk) (stk : BtStack σ) (evt : sl_bt_msg_t)
    (s : AppState σ) (hboot : k.SL_BT_MSG_ID evt.header = k.sl_bt_evt_system_boot_id) :
    (∃ s1 address address_type handle,
        sl_bt_on_event k stk evt s = .returned s1
        ∧ s1.advertising_set_handle = handle
        ∧ s1.calls = s.calls ++
          [.sl_bt_system_get_identity_address address address_type k.SL_STATUS_OK,
           .sl_bt_gatt_server_write_attribute_value k.gattdb_system_id 0 8
              [address.addr 5, address.addr 4, address.addr 3, 0xFF, 0xFE,
               address.addr 2, address.addr 1, address.addr 0] k.SL_STATUS_OK,
           .sl_bt_advertiser_create_set handle k.SL_STATUS_OK,
           .sl_bt_advertiser_set_timing handle 160 160 0 0 k.SL_STATUS_OK,
           .sl_bt_advertiser_start handle k.advertiser_general_discoverable
              k.advertiser_connectable_scannable k.SL_STATUS_OK])
      ∨ (∃ code s1,
          sl_bt_on_event k stk evt s = .aborted code s1
          ∧ ∃ c ∈ s1.calls.drop s.calls.length, c.sc ≠ k.SL_STATUS_OK) := by
  simp only [sl_bt_on_event, hboot, if_true, sl_app_assert, sl_bt_system_get_identity_address,
    sl_bt_gatt_server_write_attribute_value, sl_bt_advertiser_create_set,
    sl_bt_advertiser_set_timing, sl_bt_advertiser_start, printf,
    decide_eq_true_eq, List.length_cons, List.length_nil]
  generalize stk.get_identity_address _ = r1
  generalize stk.write_attribute_value _ _ _ _ _ = r2
  generalize stk.create_set _ _ = r3
  generalize stk.set_timing _ _ _ _ _ _ = r4
  generalize stk.start _ _ _ _ = r5
  split_ifs with h1 h2 h3 h4 h5
  · left
    refine ⟨_, r1.2.1, r1.2.2.1, r3.2.1, rfl, rfl, ?_⟩
    simp [h1, h2, h3, h4, h5]
  · right
    exact ⟨_, _, rfl, by simp [StackCall.sc, h1, h2, h3, h4, h5]⟩
  · right
    exact ⟨_, _, rfl, by simp [StackCall.sc, h1, h2, h3, h4]⟩
  · right
    exact ⟨_, _, rfl, by simp [StackCall.sc, h1, h2, h3]⟩
  · right
    exact ⟨_, _, rfl, by simp [StackCall.sc, h1, h2]⟩
  · right
    exact ⟨_, _, rfl, by simp [StackCall.sc, h1]⟩

/-- C2: for every identity address `[a0,a1,a2,a3,a4,a5]` the stack returns
(successfully), the boot branch of `sl_bt_on_event` writes, as its second stack
call and only attribute write, the eight octets `[a5,a4,a3,0xFF,0xFE,a2,a1,a0]`
to the attribute `gattdb_system_id` at offset 0 with length 8. -/
theorem boot_writes_system_id {σ : Type} (k : Sdk) (stk : BtStack σ) (evt : sl_bt_msg_t)
    (s : AppState σ) (hboot : k.SL_BT_MSG_ID evt.header = k.sl_bt_evt_system_boot_id)
    (hget : (stk.get_identity_address s.stack).2.2.2 = k.SL_STATUS_OK) :
    ∃ (sc : sl_status_t) (rest : List StackCall),
      (sl_bt_on_event k stk evt s).state.calls = s.calls ++
        ([.sl_bt_system_get_identity_address (stk.get_identity_address s.stack).2.1
            (stk.get_identity_address s.stack).2.2.1 k.SL_STATUS_OK,
          .sl_bt_gatt_server_write_attribute_value k.gattdb_system_id 0 8
            [(stk.get_identity_address s.stack).2.1.addr 5,
             (stk.get_identity_address s.stack).2.1.addr 4,
             (stk.get_identity_address s.stack).2.1.addr 3, 0xFF, 0xFE,
             (stk.get_identity_address s.stack).2.1.addr 2,
             (stk.get_identity_address s.stack).2.1.addr 1,
             (stk.get_identity_address s.stack).2.1.addr 0] sc] ++ rest)
      ∧ ∀ c ∈ rest, 2 ≤ c.step := by
  simp only [sl_bt_on_event, hboot, if_true, sl_app_assert, sl_bt_system_get_identity_address,
    sl_bt_gatt_server_write_attribute_value, sl_bt_advertiser_create_set,
    sl_bt_advertiser_set_timing, sl_bt_advertiser_start, printf,
    decide_eq_true_eq, List.length_cons, List.length_nil]
  generalize stk.get_identity_address _ = r1 at hget ⊢
  generalize stk.write_attribute_value _ _ _ _ _ = r2
  generalize stk.create_set _ _ = r3
  generalize stk.set_timing _ _ _ _ _ _ = r4
  generalize stk.start _ _ _ _ = r5
  split_ifs with h2 h3 h4 h5 <;> simp only [Outcome.state]
  · exact ⟨r2.2, [.sl_bt_advertiser_create_set r3.2.1 r3.2.2,
        .sl_bt_advertiser_set_timing r3.2.1 160 160 0 0 r4.2,
        .sl_bt_advertiser_start r3.2.1 k.advertiser_general_discoverable
          k.advertiser_connectable_scannable r5.2],
      by simp [hget], by simp [StackCall.step]⟩
  · exact ⟨r2.2, [.sl_bt_advertiser_create_set r3.2.1 r3.2.2,
        .sl_bt_advertiser_set_timing r3.2.1 160 160 0 0 r4.2,
        .sl_bt_advertiser_start r3.2.1 k.advertiser_general_discoverable
          k.advertiser_connectable_scannable r5.2],
      by simp [hget], by simp [StackCall.step]⟩
  · exact ⟨r2.2, [.sl_bt_advertiser_create_set r3.2.1 r3.2.2,
        .sl_bt_advertiser_set_timing r3.2.1 160 160 0 0 r4.2],
      by simp [hget], by simp [StackCall.step]⟩
  · exact ⟨r2.2, [.sl_bt_advertiser_create_set r3.2.1 r3.2.2],
      by simp [hget], by simp [StackCall.step]⟩
  · exact ⟨r2.2, [], by simp [hget], by simp⟩

/-- Witness of C2: with address `01:02:03:04:05:06` the octets written are
`06 05 04 FF FE 03 02 01`. -/
theorem boot_writes_system_id_witness :
    ∃ (sc : sl_status_t) (rest : List StackCall),
      (sl_bt_on_event gecko_sdk (counting_stack 9) boot_evt (AppState.init 0)).state.calls =
        [] ++ ([.sl_bt_system_get_identity_address ⟨fun i => Fin.ofNat (i.val + 1)⟩ 0 0,
          .sl_bt_gatt_server_write_attribute_value 18 0 8 [6, 5, 4, 0xFF, 0xFE, 3, 2, 1] sc]
          ++ rest)
      ∧ ∀ c ∈ rest, 2 ≤ c.step :=
  boot_writes_system_id gecko_sdk (counting_stack 9) boot_evt (AppState.init 0)
    (by decide) (by decide)

/-- C3: when `sl_bt_on_event` handles a boot event and every stack call it
makes returns success, the stack calls it makes are, in order: get identity
address, one attribute write of the System ID, one `advertiser_create_set`, one
`advertiser_set_timing` on the created handle with `(160, 160, 0, 0)` and one
`advertiser_start` on that same handle with the general-discoverable and
connectable-scannable modes; nothing else is called, and the handler returns
with the created handle stored. -/
theorem boot_success_calls {σ : Type} (k : Sdk) (stk : BtStack σ) (evt : sl_bt_msg_t)
    (s : AppState σ) (hboot : k.SL_BT_MSG_ID evt.header = k.sl_bt_evt_system_boot_id)
    (hok : ∀ c ∈ new_calls s (sl_bt_on_event k stk evt s), c.sc = k.SL_STATUS_OK) :
    ∃ address address_type handle,
      new_calls s (sl_bt_on_event k stk evt s) =
        [.sl_bt_system_get_identity_address address address_type k.SL_STATUS_OK,
         .sl_bt_gatt_server_write_attribute_value k.gattdb_system_id 0 8
            [address.addr 5, address.addr 4, address.addr 3, 0xFF, 0xFE,
             address.addr 2, address.addr 1, address.addr 0] k.SL_STATUS_OK,
         .sl_bt_advertiser_create_set handle k.SL_STATUS_OK,
         .sl_bt_advertiser_set_timing handle 160 160 0 0 k.SL_STATUS_OK,
         .sl_bt_advertiser_start handle k.advertiser_general_discoverable
            k.advertiser_connectable_scannable k.SL_STATUS_OK]
      ∧ (sl_bt_on_event k stk evt s).code = none
      ∧ (sl_bt_on_event k stk evt s).state.advertising_set_handle = handle := by
  rcases sl_bt_on_event_boot k stk evt s hboot with
    ⟨s1, address, address_type, handle, hrun, hh, hcalls⟩ | ⟨code, s1, hrun, c, hc, hsc⟩
  · refine ⟨address, address_type, handle, ?_, ?_, ?_⟩
    · simp [new_calls, hrun, Outcome.state, hcalls]
    · simp [hrun, Outcome.code]
    · simp [hrun, Outcome.state, hh]
  · exfalso
    apply hsc
    apply hok
    simpa [new_calls, hrun, Outcome.state] using hc

/-- Witness of C3: a stack that answers every command with success. -/
theorem boot_success_calls_witness :
    ∃ address address_type handle,
      new_calls (AppState.init 0)
          (sl_bt_on_event gecko_sdk (counting_stack 9) boot_evt (AppState.init 0)) =
        [.sl_bt_system_get_identity_address address address_type 0,
         .sl_bt_gatt_server_write_attribute_value 18 0 8
            [address.addr 5, address.addr 4, address.addr 3, 0xFF, 0xFE,
             address.addr 2, address.addr 1, address.addr 0] 0,
         .sl_bt_advertiser_create_set handle 0,
         .sl_bt_advertiser_set_timing handle 160 160 0 0 0,
         .sl_bt_advertiser_start handle 2 2 0]
      ∧ (sl_bt_on_event gecko_sdk (counting_stack 9) boot_evt (AppState.init 0)).code = none
      ∧ (sl_bt_on_event gecko_sdk (counting_stack 9) boot_evt
          (AppState.init 0)).state.advertising_set_handle = handle :=
  boot_success_calls gecko_sdk (counting_stack 9) boot_evt (AppState.init 0)
    (by decide) (by decide)

/-- C4: for every value of the stored advertising set handle, handling a
connection-closed event whose `advertiser_start` succeeds calls
`advertiser_start` exactly once, with the stored handle and the
general-discoverable and connectable-scannable modes, makes no other stack
call (in particular creates no advertising set), returns, and leaves the
stored handle unchanged; so a successful boot followed by a connection-closed
event restarts advertising on the handle created at boot, with the modes used
at boot. -/
theorem connection_closed_restarts_advertising {σ : Type} (k : Sdk) (stk : BtStack σ)
    (hb : k.sl_bt_evt_connection_closed_id ≠ k.sl_bt_evt_system_boot_id)
    (ho : k.sl_bt_evt_connection_closed_id ≠ k.sl_bt_evt_connection_opened_id) :
    (∀ (evt : sl_bt_msg_t) (s : AppState σ),
        k.SL_BT_MSG_ID evt.header = k.sl_bt_evt_connection_closed_id →
        (stk.start s.advertising_set_handle k.advertiser_general_discoverable
          k.advertiser_connectable_scannable s.stack).2 = k.SL_STATUS_OK →
        sl_bt_on_event k stk evt s = .returned
          { s with
            stack := (stk.start s.advertising_set_handle k.advertiser_general_discoverable
              k.advertiser_connectable_scannable s.stack).1
            calls := s.calls ++
              [.sl_bt_advertiser_start s.advertising_set_handle
                k.advertiser_general_discoverable k.advertiser_connectable_scannable
                k.SL_STATUS_OK] })
      ∧ (∀ (boot closed : sl_bt_msg_t) (s : AppState σ),
          k.SL_BT_MSG_ID boot.header = k.sl_bt_evt_system_boot_id →
          k.SL_BT_MSG_ID closed.header = k.sl_bt_evt_connection_closed_id →
          (∀ c ∈ new_calls s (deliver k stk [boot, closed] s), c.sc = k.SL_STATUS_OK) →
          ∃ address address_type handle,
            new_calls s (deliver k stk [boot, closed] s) =
              [.sl_bt_system_get_identity_address address address_type k.SL_STATUS_OK,
               .sl_bt_gatt_server_write_attribute_value k.gattdb_system_id 0 8
                  [address.addr 5, address.addr 4, address.addr 3, 0xFF, 0xFE,
                   address.addr 2, address.addr 1, address.addr 0] k.SL_STATUS_OK,
               .sl_bt_advertiser_create_set handle k.SL_STATUS_OK,
               .sl_bt_advertiser_set_timing handle 160 160 0 0 k.SL_STATUS_OK,
               .sl_bt_advertiser_start handle k.advertiser_general_discoverable
                  k.advertiser_connectable_scannable k.SL_STATUS_OK,
               .sl_bt_advertiser_start handle k.advertiser_general_discoverable
                  k.advertiser_connectable_scannable k.SL_STATUS_OK]
            ∧ (deliver k stk [boot, closed] s).code = none
            ∧ (deliver k stk [boot, closed] s).state.advertising_set_handle = handle) := by
  constructor
  · intro evt s hclosed hstart
    rw [sl_bt_on_event_closed k stk evt s hclosed hb ho, if_pos hstart, hstart]
  · intro boot closed s hboot hclosed hok
    rcases sl_bt_on_event_boot k stk boot s hboot with
      ⟨s1, address, address_type, handle, hrun, rfl, hcalls⟩ | ⟨code, s1, hrun, c, hc, hsc⟩
    · have hrun2 := sl_bt_on_event_closed k stk closed s1 hclosed hb ho
      by_cases hstart : (stk.start s1.advertising_set_handle k.advertiser_general_discoverable
          k.advertiser_connectable_scannable s1.stack).2 = k.SL_STATUS_OK
      · rw [if_pos hstart] at hrun2
        refine ⟨address, address_type, s1.advertising_set_handle, ?_, ?_, ?_⟩
        · simp [new_calls, deliver, hrun, hrun2, Outcome.state, hcalls, hstart]
        · simp [deliver, hrun, hrun2, Outcome.code]
        · simp [deliver, hrun, hrun2, Outcome.state]
      · rw [if_neg hstart] at hrun2
        exfalso
        apply hstart
        have hmem := hok (.sl_bt_advertiser_start s1.advertising_set_handle
          k.advertiser_general_discoverable k.advertiser_connectable_scannable
          (stk.start s1.advertising_set_handle k.advertiser_general_discoverable
            k.advertiser_connectable_scannable s1.stack).2)
          (by simp [new_calls, deliver, hrun, hrun2, Outcome.state, hcalls])
        simpa [StackCall.sc] using hmem
    · exfalso
      apply hsc
      apply hok
      simpa [new_calls, deliver, hrun, Outcome.state] using hc

/-- Witness of C4: with handle `7` stored, a connection-closed event makes the
single call `sl_bt_advertiser_start(7, 2, 2)` and keeps `7`. -/
theorem connection_closed_restarts_advertising_witness :
    sl_bt_on_event gecko_sdk (counting_stack 9) closed_evt ⟨7, 0, [], []⟩
      = .returned ⟨7, 1, [.sl_bt_advertiser_start 7 2 2 0], []⟩ :=
  (connection_closed_restarts_advertising gecko_sdk (counting_stack 9) (by decide)
    (by decide)).1 closed_evt ⟨7, 0, [], []⟩ (by decide) (by decide)

/-- C5: in the boot sequence of `sl_bt_on_event` the handler aborts if and only
if some stack call it made returned a non-success status; when it aborts, the
failing call is the last one made, every call before it succeeded, and the
diagnostic code is that call's status (converted to `int`, same 32 bits); the
calls made are an initial part of the sequence get identity address, attribute
write, create set, set timing, start, so no later call follows the failure. -/
theorem boot_aborts_at_first_failure {σ : Type} (k : Sdk) (stk : BtStack σ)
    (evt : sl_bt_msg_t) (s : AppState σ)
    (hboot : k.SL_BT_MSG_ID evt.header = k.sl_bt_evt_system_boot_id) :
    ((sl_bt_on_event k stk evt s).code ≠ none ↔
        ∃ c ∈ new_calls s (sl_bt_on_event k stk evt s), c.sc ≠ k.SL_STATUS_OK)
      ∧ (∀ code, (sl_bt_on_event k stk evt s).code = some code →
          ∃ pre last, new_calls s (sl_bt_on_event k stk evt s) = pre ++ [last]
            ∧ (∀ c ∈ pre, c.sc = k.SL_STATUS_OK) ∧ last.sc ≠ k.SL_STATUS_OK
            ∧ code = uint32_to_int last.sc.val
            ∧ code % 4294967296 = (last.sc.val : Int))
      ∧ (new_calls s (sl_bt_on_event k stk evt s)).map StackCall.step
          = List.range (new_calls s (sl_bt_on_event k stk evt s)).length
      ∧ (new_calls s (sl_bt_on_event k stk evt s)).length ≤ 5 := by
  simp only [sl_bt_on_event, hboot, if_true, sl_app_assert, sl_bt_system_get_identity_address,
    sl_bt_gatt_server_write_attribute_value, sl_bt_advertiser_create_set,
    sl_bt_advertiser_set_timing, sl_bt_advertiser_start, printf, new_calls,
    decide_eq_true_eq, List.length_cons, List.length_nil]
  generalize stk.get_identity_address _ = r1
  generalize stk.write_attribute_value _ _ _ _ _ = r2
  generalize stk.create_set _ _ = r3
  generalize stk.set_timing _ _ _ _ _ _ = r4
  generalize stk.start _ _ _ _ = r5
  split_ifs with h1 h2 h3 h4 h5 <;>
    simp only [Outcome.state, Outcome.code, List.append_assoc, List.singleton_append,
      List.cons_append, List.nil_append, List.drop_left] <;>
    refine ⟨?_, ?_, by rfl, by simp⟩
  · simp [StackCall.sc, h1, h2, h3, h4, h5]
  · simp
  · simp [StackCall.sc, h1, h2, h3, h4, h5]
  · intro code hcode
    simp only [Option.some.injEq] at hcode
    subst hcode
    exact ⟨[_, _, _, _], _, rfl, by simp [StackCall.sc, h1, h2, h3, h4], h5, rfl,
      uint32_to_int_emod _ (Fin.isLt _)⟩
  · simp [StackCall.sc, h1, h2, h3, h4]
  · intro code hcode
    simp only [Option.some.injEq] at hcode
    subst hcode
    exact ⟨[_, _, _], _, rfl, by simp [StackCall.sc, h1, h2, h3], h4, rfl,
      uint32_to_int_emod _ (Fin.isLt _)⟩
  · simp [StackCall.sc, h1, h2, h3]
  · intro code hcode
    simp only [Option.some.injEq] at hcode
    subst hcode
    exact ⟨[_, _], _, rfl, by simp [StackCall.sc, h1, h2], h3, rfl,
      uint32_to_int_emod _ (Fin.isLt _)⟩
  · simp [StackCall.sc, h1, h2]
  · intro code hcode
    simp only [Option.some.injEq] at hcode
    subst hcode
    exact ⟨[_], _, rfl, by simp [StackCall.sc, h1], h2, rfl,
      uint32_to_int_emod _ (Fin.isLt _)⟩
  · simp [StackCall.sc, h1]
  · intro code hcode
    simp only [Option.some.injEq] at hcode
    subst hcode
    exact ⟨[], _, rfl, by simp, h1, rfl, uint32_to_int_emod _ (Fin.isLt _)⟩

/-- Witness of C5: a stack whose third command (create set) fails with status
`1` makes the boot sequence abort with code `1` after exactly three calls. -/
theorem boot_aborts_at_first_failure_witness :
    (sl_bt_on_event gecko_sdk (counting_stack 2) boot_evt (AppState.init 0)).code = some 1
      ∧ (new_calls (AppState.init 0)
          (sl_bt_on_event gecko_sdk (counting_stack 2) boot_evt (AppState.init 0))).map
            StackCall.step = [0, 1, 2] := by
  have h := boot_aborts_at_first_failure gecko_sdk (counting_stack 2) boot_evt
    (AppState.init 0) (by decide)
  refine ⟨by decide, ?_⟩
  rw [h.2.2.1]
  decide

/-- C6: for every event whose id is neither boot nor connection-closed (the
connection-opened id and every unrecognized id), `sl_bt_on_event` returns with
the state unchanged: no stack call, no abort, same advertising set handle. -/
theorem other_events_ignored {σ : Type} (k : Sdk) (stk : BtStack σ) (evt : sl_bt_msg_t)
    (s : AppState σ)
    (hnb : k.SL_BT_MSG_ID evt.header ≠ k.sl_bt_evt_system_boot_id)
    (hnc : k.SL_BT_MSG_ID evt.header ≠ k.sl_bt_evt_connection_closed_id) :
    sl_bt_on_event k stk evt s = .returned s := by
  simp only [sl_bt_on_event, hnb, hnc, if_false, ite_self]

/-- Witness of C6: a connection-opened event and an event with an id the
handler does not know, delivered to a stack that would fail every command. -/
theorem other_events_ignored_witness :
    sl_bt_on_event gecko_sdk (counting_stack 0) opened_evt (AppState.init 0)
        = .returned (AppState.init 0)
      ∧ sl_bt_on_event gecko_sdk (counting_stack 0) ⟨0x020000a0⟩ (AppState.init 0)
        = .returned (AppState.init 0) :=
  ⟨other_events_ignored gecko_sdk (counting_stack 0) opened_evt (AppState.init 0)
      (by decide) (by decide),
   other_events_ignored gecko_sdk (counting_stack 0) ⟨0x020000a0⟩ (AppState.init 0)
      (by decide) (by decide)⟩

/-! ## The tasks -/

theorem load_bytes_store_bytes_of_lt (mem : Nat → uint8_t) (p q len : Nat)
    (bs : List uint8_t) (h : p + len ≤ q) :
    load_bytes (store_bytes mem q bs) p len = load_bytes mem p len := by
  unfold load_bytes
  apply List.map_congr_left
  intro i hi
  have hlt : i < len := List.mem_range.mp hi
  have hno : ¬ (q ≤ p + i ∧ p + i < q + bs.length) := by omega
  simp only [store_bytes, hno, if_false]

/-- What an iteration of `iadc_task` does when the sampler returns `m` and the
local variable lives at an address of at least 260 (any RAM address): the
attribute write is handed the pointer `addr_milivolts % 256` and therefore the
octets stored there, whatever `m` is; the send carries `m`. -/
theorem iadc_task_iteration_of_measurement (k : Sdk) (IADC0 : IADC_TypeDef) (fuel : Nat)
    (mem : Nat → uint8_t) (addr_milivolts : Nat) (xQueueSend_result : Int)
    (g : AdcGlobals) (m : Int)
    (hget : my_adc_measurement_get k IADC0 fuel = some (g, m))
    (haddr : 260 ≤ addr_milivolts) :
    iadc_task_iteration k IADC0 fuel mem addr_milivolts xQueueSend_result =
      some (g,
        [.sl_app_log "ADC Task\r\n",
         .my_adc_start_measurement,
         .sl_bt_gatt_server_write_attribute_value k.gattdb_ADCData 0 4 (addr_milivolts % 256)
            (load_bytes mem (addr_milivolts % 256) 4),
         .xQueueSend m 1000]
        ++ (if xQueueSend_result = 0 then [.printf "Failed to send to the queue\r\n"] else [])
        ++ [.vTaskDelay 1000]) := by
  have hload0 := load_bytes_store_bytes_of_lt mem (addr_milivolts % 256) addr_milivolts 4
    (int_bytes 0) (by omega)
  have hload := load_bytes_store_bytes_of_lt (store_bytes mem addr_milivolts (int_bytes 0))
    (addr_milivolts % 256) addr_milivolts 4 (int_bytes m) (by omega)
  simp only [iadc_task_iteration, hget, sizeof_int, hload, hload0]

/-- C7 (failing input): with `sample.data = 1967` the measurement is `m = 1200`;
the local `milivolts` lives at `0x2000FFE4`.  The attribute write at
`gattdb_ADCData`, offset 0, length 4 receives the pointer `0xE4` and hence the
octets stored at `0xE4 .. 0xE7`, not the encoding `B0 04 00 00` of `1200`; the
send on the queue carries `1200` with a timeout of 1000 ticks. -/
theorem iadc_task_writes_bytes_at_truncated_pointer :
    iadc_task_iteration gecko_sdk (iadc_done 1967) 1 address_pattern 0x2000FFE4 1
        = some (⟨⟨1967, 0⟩, 1200⟩,
            [.sl_app_log "ADC Task\r\n",
             .my_adc_start_measurement,
             .sl_bt_gatt_server_write_attribute_value 27 0 4 0xE4 [0xE4, 0xE5, 0xE6, 0xE7],
             .xQueueSend 1200 1000,
             .vTaskDelay 1000])
      ∧ int_bytes 1200 = [0xB0, 0x04, 0x00, 0x00] := by
  decide

theorem receive_timeouts_append (a b : List TaskAction) :
    receive_timeouts (a ++ b) = receive_timeouts a ++ receive_timeouts b := by
  simp [receive_timeouts, List.filterMap_append]

theorem task_delays_append (a b : List TaskAction) :
    task_delays (a ++ b) = task_delays a ++ task_delays b := by
  simp [task_delays, List.filterMap_append]

theorem receive_timeouts_led_task_iteration (r v : Int) :
    receive_timeouts (led_task_iteration r v) = [1000] := by
  by_cases h : r = 0 <;> simp [led_task_iteration, receive_timeouts, h]

theorem task_delays_led_task_iteration (r v : Int) :
    task_delays (led_task_iteration r v) = [500] := by
  by_cases h : r = 0 <;> simp [led_task_iteration, task_delays, h]

/-- C8 (as stated, refuted): the receive of `led_task` is called with the
timeout argument `1000`, not `500`; and whatever the tick rate, the receive
timeout and the sleep are not both 500 ms. -/
theorem led_task_receive_timeout_not_500 :
    receive_timeouts (led_task_iteration 1 1200) ≠ [500]
      ∧ ¬ ∃ hz : Nat,
          (receive_timeouts (led_task_iteration 1 1200)).map (ticks_to_ms hz) = [500]
          ∧ (task_delays (led_task_iteration 1 1200)).map (ticks_to_ms hz) = [500] := by
  rw [receive_timeouts_led_task_iteration, task_delays_led_task_iteration]
  refine ⟨by decide, ?_⟩
  rintro ⟨hz, h1, h2⟩
  simp only [List.map_cons, List.map_nil, List.cons.injEq, and_true, ticks_to_ms] at h1 h2
  rcases Nat.eq_zero_or_pos hz with h0 | hpos
  · subst h0
    simp at h1
  · have e1 := Nat.div_add_mod (1000 * 1000) hz
    have e2 := Nat.div_add_mod (500 * 1000) hz
    have l1 := Nat.mod_lt (1000 * 1000) hpos
    have l2 := Nat.mod_lt (500 * 1000) hpos
    rw [h1] at e1
    rw [h2] at e2
    omega

/-- C8 (amended): in every iteration of `led_task` the receive on the queue is
called, once, with a timeout of 1000 ticks and the iteration then ends with one
delay of 500 ticks; at a tick rate of 1000 Hz these are 1000 ms and 500 ms. -/
theorem led_task_receive_1000_then_delay_500 :
    (∀ r v : Int,
        receive_timeouts (led_task_iteration r v) = [1000]
        ∧ task_delays (led_task_iteration r v) = [500]
        ∧ (led_task_iteration r v).get? 1 = some (.xQueueReceive 1000)
        ∧ (led_task_iteration r v).getLast? = some (.vTaskDelay 500))
      ∧ (∀ (queue : Nat → Int × Int) (n i : Nat),
          receive_timeouts (led_task queue n i) = List.replicate n 1000
          ∧ task_delays (led_task queue n i) = List.replicate n 500)
      ∧ ticks_to_ms 1000 1000 = 1000 ∧ ticks_to_ms 1000 500 = 500 := by
  refine ⟨?_, ?_, by decide, by decide⟩
  · intro r v
    refine ⟨receive_timeouts_led_task_iteration r v, task_delays_led_task_iteration r v, ?_, ?_⟩
    · simp [led_task_iteration]
    · by_cases h : r = 0 <;> simp [led_task_iteration, h]
  · intro queue n
    induction n with
    | zero => intro i; simp [led_task, receive_timeouts, task_delays]
    | succ n ih =>
      intro i
      obtain ⟨h1, h2⟩ := ih (i + 1)
      simp only [led_task, receive_timeouts_append, task_delays_append,
        receive_timeouts_led_task_iteration, task_delays_led_task_iteration, h1, h2,
        List.replicate_succ, List.singleton_append, and_self]

/-- C9: an iteration of `led_task` toggles the indicator exactly once if the
receive succeeded and not at all if it timed out; the actions do not depend on
the received value; on timeout the iteration only reports the failure before
its sleep. -/
theorem led_task_toggles_on_any_arrival (r v : Int) :
    (led_task_iteration r v).count .sl_led_toggle = (if r = 0 then 0 else 1)
      ∧ (∀ w : Int, led_task_iteration r w = led_task_iteration r v)
      ∧ led_task_iteration r v =
          (if r = 0 then
            [.sl_app_log "LED Task\r\n", .xQueueReceive 1000,
             .printf "Failed to receive from the queue\r\n", .vTaskDelay 500]
          else
            [.sl_app_log "LED Task\r\n", .xQueueReceive 1000, .sl_led_toggle,
             .vTaskDelay 500]) := by
  refine ⟨?_, fun _ => rfl, ?_⟩
  · by_cases h : r = 0 <;> simp [led_task_iteration, h, List.count_cons]
  · by_cases h : r = 0 <;> simp [led_task_iteration, h]

end BLEFreeRTOS
